import Mathlib

/-!
Shallow embedding of the Sparkify data-lake ETL pipeline (etl.py).

The pipeline reads song-metadata JSON records and event-log JSON records,
and derives five analytical tables: songs, artists, users, time, songplays.
DataFrames are modelled as Lean lists of records; nullable JSON fields are
`Option`-typed; SQL `DISTINCT` is `List.dedup`; SQL equality (null never
equal to anything) is `sqlEq`; Spark temp views registered on the session
are an explicit `Session` record threaded through the two transforms.
Timestamps are epoch instants with second and microsecond components,
matching `datetime.fromtimestamp` / Spark `TimestampType` precision.
-/

/-- One song-metadata JSON record, as read by `spark.read.json(song_data)`.
All fields are nullable in the source data. -/
structure SongRecord where
  song_id : Option String
  title : Option String
  artist_id : Option String
  artist_name : Option String
  artist_location : Option String
  artist_latitude : Option Rat
  artist_longitude : Option Rat
  year : Option Int
  duration : Option Rat
deriving DecidableEq

/-- One event-log JSON record, as read by `spark.read.json(log_data)`.
`ts` is epoch milliseconds and is present on every event. -/
structure EventRecord where
  page : Option String
  userId : Option Int
  firstName : Option String
  lastName : Option String
  gender : Option String
  level : Option String
  ts : Int
  song : Option String
  artist : Option String
  sessionId : Option Int
  location : Option String
  userAgent : Option String
deriving DecidableEq

/-- SQL equality semantics: `NULL = x` is never true; two non-null values
compare by ordinary equality. Used for join conditions and WHERE clauses. -/
def sqlEq {α : Type} [DecidableEq α] : Option α → Option α → Bool
  | some a, some b => a = b
  | _, _ => false

/-- Row of the `songs` table: `SELECT DISTINCT song_id, title, artist_id,
year, duration FROM song_data`. -/
structure SongRow where
  song_id : Option String
  title : Option String
  artist_id : Option String
  year : Option Int
  duration : Option Rat
deriving DecidableEq

/-- Row of the `artists` table: `SELECT DISTINCT artist_id, artist_name AS
name, artist_location AS location, artist_latitude AS latitude,
artist_longitude AS longitude FROM song_data`. -/
structure ArtistRow where
  artist_id : Option String
  name : Option String
  location : Option String
  latitude : Option Rat
  longitude : Option Rat
deriving DecidableEq

/-- Projection of one song record to a `songs`-table row. -/
def projSong (s : SongRecord) : SongRow :=
  ⟨s.song_id, s.title, s.artist_id, s.year, s.duration⟩

/-- Projection of one song record to an `artists`-table row, with the
source-field renames from the SQL. -/
def projArtist (s : SongRecord) : ArtistRow :=
  ⟨s.artist_id, s.artist_name, s.artist_location, s.artist_latitude, s.artist_longitude⟩

/-- The `songs` table: project every song record and apply `DISTINCT`. -/
def songs_table (records : List SongRecord) : List SongRow :=
  (records.map projSong).dedup

/-- The `artists` table: project every song record and apply `DISTINCT`. -/
def artists_table (records : List SongRecord) : List ArtistRow :=
  (records.map projArtist).dedup

/-- The registered temp views of the Spark session. `process_song_data` registers
`song_data` (the raw song DataFrame, line 39 of etl.py); `process_log_data`
registers `log_data`. A fresh session has neither view. -/
structure Session where
  song_data : Option (List SongRecord)
  log_data : Option (List EventRecord)

/-- Model of `process_song_data`: reads song records, registers the raw DataFrame as
temp view `song_data`, and produces the `songs` and `artists` tables (each
written in overwrite mode). Returns the updated session and both tables. -/
def process_song_data (sess : Session) (songInput : List SongRecord) :
    Session × List SongRow × List ArtistRow :=
  ({ sess with song_data := some songInput },
   songs_table songInput,
   artists_table songInput)

/-- A calendar timestamp as held by `datetime` / Spark `TimestampType`:
whole seconds since the epoch plus a microsecond component in `[0, 10^6)`. -/
structure Timestamp where
  epochSec : Int
  micro : Int
deriving DecidableEq

/-- The `get_timestamp` UDF of etl.py line 111:
`lambda x: datetime.fromtimestamp(x/1000)` where `x` is epoch milliseconds.
Python `/` is true division, so the fractional milliseconds survive into the
microsecond component of the resulting timestamp. -/
def get_timestamp (ts : Int) : Timestamp :=
  ⟨ts.ediv 1000, ts.emod 1000 * 1000⟩

/-- Days-to-civil-date conversion for the proleptic Gregorian calendar
(the standard era-based algorithm): day 0 is 1970-01-01, and the result is
`(year, month, day-of-month)`. -/
def civilFromDays (z0 : Int) : Int × Int × Int :=
  let z := z0 + 719468
  let era := (if 0 ≤ z then z else z - 146096).ediv 146097
  let doe := z - era * 146097
  let yoe := (doe - doe.ediv 1460 + doe.ediv 36524 - doe.ediv 146096).ediv 365
  let y := yoe + era * 400
  let doy := doe - (365 * yoe + yoe.ediv 4 - yoe.ediv 100)
  let mp := (5 * doy + 2).ediv 153
  let d := doy - (153 * mp + 2).ediv 5 + 1
  let m := mp + (if mp < 10 then 3 else -9)
  (y + (if m ≤ 2 then 1 else 0), m, d)

/-- Civil-date-to-days conversion, inverse of `civilFromDays`. -/
def daysFromCivil (y0 m d : Int) : Int :=
  let y := y0 - (if m ≤ 2 then 1 else 0)
  let era := (if 0 ≤ y then y else y - 399).ediv 400
  let yoe := y - era * 400
  let doy := (153 * (m + (if 2 < m then -3 else 9)) + 2).ediv 5 + d - 1
  let doe := yoe * 365 + yoe.ediv 4 - yoe.ediv 100 + doy
  era * 146097 + doe

/-- Whole days since the epoch of a timestamp. -/
def daysOf (t : Timestamp) : Int := t.epochSec.ediv 86400

/-- Spark `hour(start_time)`. -/
def hourOf (t : Timestamp) : Int := (t.epochSec.emod 86400).ediv 3600

/-- Spark `dayofmonth(start_time)`. -/
def dayOf (t : Timestamp) : Int := (civilFromDays (daysOf t)).2.2

/-- Spark `month(start_time)`. -/
def monthOf (t : Timestamp) : Int := (civilFromDays (daysOf t)).2.1

/-- Spark `year(start_time)`. -/
def yearOf (t : Timestamp) : Int := (civilFromDays (daysOf t)).1

/-- Spark `dayofweek(start_time)`: 1 = Sunday, …, 7 = Saturday.
Day 0 (1970-01-01) was a Thursday, hence the offset 4. -/
def weekdayOf (t : Timestamp) : Int := (daysOf t + 4).emod 7 + 1

/-- ISO weekday of a day number: 1 = Monday, …, 7 = Sunday. -/
def isoWeekday (z : Int) : Int := (z + 3).emod 7 + 1

/-- One-based ordinal of a day within its calendar year. -/
def dayOfYear (z : Int) : Int := z - daysFromCivil (civilFromDays z).1 1 1 + 1

/-- Weekday anchor used by the ISO week-count rule. -/
def pIso (y : Int) : Int := (y + y.ediv 4 - y.ediv 100 + y.ediv 400).emod 7

/-- Number of ISO weeks (52 or 53) in a given year. -/
def weeksInISOYear (y : Int) : Int :=
  if pIso y = 4 ∨ pIso (y - 1) = 3 then 53 else 52

/-- Spark `weekofyear(start_time)`: the ISO-8601 week number. -/
def weekOf (t : Timestamp) : Int :=
  let z := daysOf t
  let y := (civilFromDays z).1
  let w := (dayOfYear z - isoWeekday z + 10).ediv 7
  if w < 1 then weeksInISOYear (y - 1)
  else if weeksInISOYear y < w then 1 else w

/-- The filter of etl.py line 85: `df.filter(df.page == "NextSong")`.
A null `page` compares as null, hence false, and is dropped. -/
def filtered (logs : List EventRecord) : List EventRecord :=
  logs.filter (fun e => sqlEq e.page (some "NextSong"))

/-- Row of the `users` table. -/
structure UserRow where
  user_id : Option Int
  first_name : Option String
  last_name : Option String
  gender : Option String
  level : Option String
deriving DecidableEq

/-- Projection of one (filtered) event record to a `users`-table row. -/
def projUser (e : EventRecord) : UserRow :=
  ⟨e.userId, e.firstName, e.lastName, e.gender, e.level⟩

/-- SQL `MAX(ts)` over the `GROUP BY userId` group of `u` inside `f`:
`some` of the maximum when the group is non-empty, `none` otherwise. -/
def groupMaxTs (f : List EventRecord) (u : Option Int) : Option Int :=
  ((f.filter (fun e => e.userId = u)).map (·.ts)).max?

/-- The CTE `latest` of the users query: one `(userId, MAX(ts))` pair per
distinct `userId` value occurring in the filtered log (SQL `GROUP BY`
groups null keys together, like any other key). -/
def latestTable (f : List EventRecord) : List (Option Int × Option Int) :=
  (f.map (·.userId)).dedup.map (fun u => (u, groupMaxTs f u))

/-- The `users` table (etl.py lines 91–102): join the filtered log to
`latest` on `latest.userId = s.userId`, keep rows with `s.ts = latest.ts`,
project, and apply `DISTINCT`. Both equalities use SQL null semantics. -/
def users_table (logs : List EventRecord) : List UserRow :=
  ((filtered logs).flatMap (fun s =>
      ((latestTable (filtered logs)).filter
          (fun p => sqlEq p.1 s.userId && sqlEq (some s.ts) p.2)).map
        (fun _ => projUser s))).dedup

/-- Row of the `time` table. -/
structure TimeRow where
  start_time : Timestamp
  hour : Int
  day : Int
  week : Int
  month : Int
  year : Int
  weekday : Int
deriving DecidableEq

/-- The derived columns of the `time` query, all computed from one
`start_time` value. -/
def mkTimeRow (t : Timestamp) : TimeRow :=
  ⟨t, hourOf t, dayOf t, weekOf t, monthOf t, yearOf t, weekdayOf t⟩

/-- The `time` table (etl.py lines 116–126): for every filtered event,
compute `start_time = get_timestamp ts` and its calendar fields, then
apply `DISTINCT` over the full row. -/
def time_table (logs : List EventRecord) : List TimeRow :=
  ((filtered logs).map (fun e => mkTimeRow (get_timestamp e.ts))).dedup

/-- Row of the `songplays` table before the synthetic id is appended. -/
structure SongplayRow where
  start_time : Timestamp
  month : Int
  year : Int
  user_id : Option Int
  level : Option String
  song_id : Option String
  artist_id : Option String
  session_id : Option Int
  location : Option String
  user_agent : Option String
deriving DecidableEq

/-- The join condition of etl.py line 149:
`l.song = s.title AND l.artist = s.artist_name`, with SQL null semantics
(a null `song`, `artist`, `title` or `artist_name` never matches). -/
def matchSong (l : EventRecord) (s : SongRecord) : Bool :=
  sqlEq l.song s.title && sqlEq l.artist s.artist_name

/-- The projection of one joined (event, catalog-record) pair to a
`songplays` row (etl.py lines 138–147). -/
def songplayOf (l : EventRecord) (s : SongRecord) : SongplayRow :=
  let st := get_timestamp l.ts
  ⟨st, monthOf st, yearOf st, l.userId, l.level, s.song_id, s.artist_id,
   l.sessionId, l.location, l.userAgent⟩

/-- The rows the inner join contributes for one event: one row per catalog
record (occurrence) whose pair matches the `(song, artist)` pair of that event. -/
def rowsForEvent (l : EventRecord) (catalog : List SongRecord) : List SongplayRow :=
  (catalog.filter (fun s => matchSong l s)).map (songplayOf l)

/-- The joined `songplays` result (etl.py lines 136–150): filtered events
inner-joined to the raw `song_data` view, one output row per matching
(event, catalog-record) pair, in join order; no deduplication. -/
def songplays_rows (logs : List EventRecord) (catalog : List SongRecord) :
    List SongplayRow :=
  (filtered logs).flatMap (fun l => rowsForEvent l catalog)

/-- A `songplays` row with its appended synthetic id. -/
structure SongplayWithId where
  row : SongplayRow
  songplay_id : Int
deriving DecidableEq

/-- The `withColumn("songplay_id", monotonically_increasing_id())` step (etl.py line
153): each row of the joined result receives an id. The ids Spark assigns
depend on the physical partitioning, so they are modelled as an arbitrary
run-dependent assignment `idOf` from row positions; Spark guarantees the
assignment is injective (ids are generated per partition from disjoint
ranges), which the theorems take as a hypothesis where needed. -/
def songplays_table (idOf : Nat → Int) (logs : List EventRecord)
    (catalog : List SongRecord) : List SongplayWithId :=
  (songplays_rows logs catalog).enum.map (fun p => ⟨p.2, idOf p.1⟩)

/-- The outputs of `process_log_data`. The `users` and `time` tables are
derived and written before the songplays query runs. The songplays query
(etl.py line 136) reads the temp view `song_data` from the session; if no
prior `process_song_data` call registered it, that query fails
(`none` — in Spark, an AnalysisException after `users` and `time` were
already written). -/
structure LogOutputs where
  users : List UserRow
  time : List TimeRow
  songplays : Option (List SongplayWithId)

/-- Model of `process_log_data` (etl.py lines 68–160): read the event log, filter to
`NextSong`, register the filtered DataFrame as temp view `log_data`, derive
and write `users` and `time`, then derive and write `songplays` by joining
`log_data` against whatever the `song_data` view of the session holds. -/
def process_log_data (idOf : Nat → Int) (sess : Session)
    (logInput : List EventRecord) : Session × LogOutputs :=
  let f := filtered logInput
  let sess1 : Session := { sess with log_data := some f }
  (sess1,
   { users := users_table logInput,
     time := time_table logInput,
     songplays := sess1.song_data.map (fun cat => songplays_table idOf logInput cat) })

/-- The five tables written by one full pipeline run. Every write is in
overwrite mode, so these are the complete contents at each output location
after the run. -/
structure Outputs where
  songs : List SongRow
  artists : List ArtistRow
  users : List UserRow
  time : List TimeRow
  songplays : Option (List SongplayWithId)

/-- The `main` function of etl.py (lines 162–174; the name `main` is reserved
by Lean for an IO entry point): start from a fresh session, run
`process_song_data` then `process_log_data` against shared input/output
locations. -/
def etl_main (idOf : Nat → Int) (songInput : List SongRecord)
    (logInput : List EventRecord) : Outputs :=
  let fresh : Session := ⟨none, none⟩
  let r1 := process_song_data fresh songInput
  let r2 := process_log_data idOf r1.1 logInput
  { songs := r1.2.1, artists := r1.2.2,
    users := r2.2.users, time := r2.2.time, songplays := r2.2.songplays }

/-- Concrete event-record builder for test inputs: the fields not under
test get fixed non-null fillers. -/
def mkEvent (page : Option String) (uid : Option Int) (lvl : Option String)
    (ts : Int) (song artist : Option String) : EventRecord :=
  ⟨page, uid, some "F", some "L", some "M", lvl, ts, song, artist,
   some 42, some "Home", some "UA"⟩

/-- Concrete song-record builder for test inputs. -/
def mkSong (sid t aid an : Option String) : SongRecord :=
  ⟨sid, t, aid, an, some "NY", none, none, some 2001, some 200⟩

/-- A play event matching the only record of `demoCat`. -/
def c3EventMatch : EventRecord :=
  mkEvent (some "NextSong") (some 1) (some "paid") 1000 (some "Foo") (some "Bar")

/-- A play event with a null `song` field. -/
def c3EventNull : EventRecord :=
  mkEvent (some "NextSong") (some 1) (some "paid") 1000 none (some "Bar")

/-- A one-record song catalog. -/
def demoCat : List SongRecord :=
  [mkSong (some "S1") (some "Foo") (some "A1") (some "Bar")]

/-- A catalog with two records sharing the (title, artist_name) pair. -/
def dupCat : List SongRecord :=
  [mkSong (some "S1") (some "Foo") (some "A1") (some "Bar"),
   mkSong (some "S2") (some "Foo") (some "A2") (some "Bar")]

/-- A one-event log whose event matches `demoCat`. -/
def demoLogs : List EventRecord := [c3EventMatch]

/-- Two play events for the same user with the same (tied) maximum `ts`
but different subscription levels. -/
def c2Logs : List EventRecord :=
  [mkEvent (some "NextSong") (some 1) (some "free") 100 none none,
   mkEvent (some "NextSong") (some 1) (some "paid") 100 none none]

/-- The scenario log from the spec: user 10 plays at `ts = 100` on level "free"
and at `ts = 200` on level "paid". -/
def c2ScenarioLogs : List EventRecord :=
  [mkEvent (some "NextSong") (some 10) (some "free") 100 none none,
   mkEvent (some "NextSong") (some 10) (some "paid") 200 none none]

theorem sqlEq_some_right {α : Type} [DecidableEq α] (a : Option α) (x : α) :
    sqlEq a (some x) = true ↔ a = some x := by
  cases a <;> simp [sqlEq]

theorem sqlEq_some_left {α : Type} [DecidableEq α] (x : α) (b : Option α) :
    sqlEq (some x) b = true ↔ b = some x := by
  cases b with
  | none => simp [sqlEq]
  | some y => simpa [sqlEq] using eq_comm

theorem sqlEq_true_iff {α : Type} [DecidableEq α] (a b : Option α) :
    sqlEq a b = true ↔ ∃ x, a = some x ∧ b = some x := by
  cases a <;> cases b <;> simp [sqlEq]
  exact eq_comm

theorem sqlEq_none_left {α : Type} [DecidableEq α] (b : Option α) :
    sqlEq (none : Option α) b = false := by
  cases b <;> rfl

theorem sqlEq_none_right {α : Type} [DecidableEq α] (a : Option α) :
    sqlEq a (none : Option α) = false := by
  cases a <;> rfl

theorem filtered_cons_of_not_nextsong (e : EventRecord) (logs : List EventRecord)
    (h : e.page ≠ some "NextSong") : filtered (e :: logs) = filtered logs := by
  have hp : sqlEq e.page (some "NextSong") = false := by
    cases hb : sqlEq e.page (some "NextSong") with
    | false => rfl
    | true => exact absurd ((sqlEq_some_right _ _).mp hb) h
  simp [filtered, List.filter_cons, hp]

/-- C6: for every input set of song-metadata records, the songs table and
the artists table contain no two equal rows under their full projected
column tuple — duplicate source records collapse to one output row. -/
theorem c6_songs_artists_nodup (records : List SongRecord) :
    (songs_table records).Nodup ∧ (artists_table records).Nodup :=
  ⟨List.nodup_dedup _, List.nodup_dedup _⟩

/-- C4 counterexample: `start_time` does NOT carry only second granularity.
At `ts = 1500` (epoch milliseconds) the derived timestamp is 1 second and
500000 microseconds, and that sub-second instant is what the time table
stores: the conversion `datetime.fromtimestamp(ts/1000)` uses Python true
division and keeps the milliseconds. -/
theorem c4_counterexample :
    (get_timestamp 1500).micro = 500000 ∧
    mkTimeRow (get_timestamp 1500) ∈
      time_table [mkEvent (some "NextSong") (some 1) (some "paid") 1500 none none] := by
  constructor
  · rfl
  · decide

/-- C4 amended: `start_time` is derived from `ts` (epoch milliseconds) by
the pure conversion `fromtimestamp(ts/1000)` with true division: whole
seconds `ts div 1000` plus `(ts mod 1000) * 1000` microseconds. Millisecond
precision is preserved (round-trips to `ts` exactly), and the sub-second
component is zero exactly when `ts` is a whole multiple of 1000. -/
theorem c4_get_timestamp_millisecond_precision (ts : Int) :
    (get_timestamp ts).epochSec = ts.ediv 1000 ∧
    (get_timestamp ts).micro = ts.emod 1000 * 1000 ∧
    (get_timestamp ts).epochSec * 1000 + ((get_timestamp ts).micro).ediv 1000 = ts ∧
    ((get_timestamp ts).micro = 0 ↔ ts.emod 1000 = 0) := by
  refine ⟨rfl, rfl, ?_, ?_⟩
  · show ts / 1000 * 1000 + (ts % 1000 * 1000) / 1000 = ts
    rw [Int.mul_ediv_cancel _ (by norm_num)]
    omega
  · show ts % 1000 * 1000 = 0 ↔ ts % 1000 = 0
    omega

/-- C5: an event record whose page is not "NextSong" contributes nothing to
the users, time, or songplays derivations: adding such a record to the
event log leaves all three results unchanged, because every derivation
operates on the `page == "NextSong"` filtered set. -/
theorem c5_non_nextsong_contributes_nothing (logs : List EventRecord)
    (cat : List SongRecord) (e : EventRecord) (h : e.page ≠ some "NextSong") :
    users_table (e :: logs) = users_table logs ∧
    time_table (e :: logs) = time_table logs ∧
    songplays_rows (e :: logs) cat = songplays_rows logs cat := by
  have hf := filtered_cons_of_not_nextsong e logs h
  refine ⟨?_, ?_, ?_⟩
  · show (users_table (e :: logs)) = users_table logs
    unfold users_table
    rw [hf]
  · unfold time_table
    rw [hf]
  · unfold songplays_rows
    rw [hf]

/-- C5 witness: a concrete "PageView" event added to a concrete log changes
none of the three outputs. -/
theorem c5_witness :
    users_table (mkEvent (some "PageView") (some 2) (some "free") 7 none none :: demoLogs)
      = users_table demoLogs ∧
    time_table (mkEvent (some "PageView") (some 2) (some "free") 7 none none :: demoLogs)
      = time_table demoLogs ∧
    songplays_rows (mkEvent (some "PageView") (some 2) (some "free") 7 none none :: demoLogs) demoCat
      = songplays_rows demoLogs demoCat :=
  c5_non_nextsong_contributes_nothing demoLogs demoCat
    (mkEvent (some "PageView") (some 2) (some "free") 7 none none) (by decide)

/-- C7: every row of the time table is exactly the tuple of calendar
fields computed from its own `start_time` (re-deriving from `start_time`
reproduces the row), and no two rows of the time table share a
`start_time`. -/
theorem c7_time_table_functional_and_distinct (logs : List EventRecord) :
    (∀ r ∈ time_table logs, r = mkTimeRow r.start_time) ∧
    (time_table logs).Pairwise (fun a b => a.start_time ≠ b.start_time) := by
  have hmem : ∀ r ∈ time_table logs, r = mkTimeRow r.start_time := by
    intro r hr
    rcases List.mem_map.mp (List.mem_dedup.mp hr) with ⟨e, _, he⟩
    rw [← he]
    rfl
  refine ⟨hmem, ?_⟩
  have hnd : (time_table logs).Nodup := List.nodup_dedup _
  refine hnd.imp_of_mem ?_
  intro a b ha hb hne heq
  exact hne ((hmem a ha).trans (heq ▸ (hmem b hb).symm))

/-- C7 witness: in a concrete one-event log the single time-table row is
reproduced by re-deriving from its `start_time`. -/
theorem c7_witness :
    mkTimeRow (get_timestamp 1000) ∈ time_table demoLogs ∧
    mkTimeRow (get_timestamp 1000) = mkTimeRow (mkTimeRow (get_timestamp 1000)).start_time :=
  ⟨by decide,
   (c7_time_table_functional_and_distinct demoLogs).1 (mkTimeRow (get_timestamp 1000)) (by decide)⟩

/-- C3: a filtered play event contributes a songplays row if and only if
the `(title, artist_name)` pair of some catalog record equals the
`(song, artist)` pair of the event exactly; a null `song` or `artist` matches nothing;
unmatched events are silently dropped; and each catalog record occurrence
contributes at most one row per matching event (exactly one per matching
occurrence). The first conjunct ties the per-event contribution to the
songplays result itself. -/
theorem c3_songplay_join_semantics (logs : List EventRecord)
    (cat : List SongRecord) (l : EventRecord) :
    songplays_rows logs cat = (filtered logs).flatMap (fun e => rowsForEvent e cat) ∧
    (rowsForEvent l cat ≠ [] ↔ ∃ s ∈ cat, matchSong l s = true) ∧
    ((l.song = none ∨ l.artist = none) → rowsForEvent l cat = []) ∧
    (rowsForEvent l cat).length = (cat.filter (fun s => matchSong l s)).length := by
  refine ⟨rfl, ?_, ?_, ?_⟩
  · constructor
    · intro hne
      rcases hfe : cat.filter (fun s => matchSong l s) with _ | ⟨x, t⟩
      · exact absurd (by simp [rowsForEvent, hfe]) hne
      · have hx : x ∈ cat.filter (fun s => matchSong l s) :=
          hfe ▸ List.mem_cons_self x t
        exact ⟨x, (List.mem_filter.mp hx).1, (List.mem_filter.mp hx).2⟩
    · rintro ⟨s, hs, hm⟩
      have hmem : songplayOf l s ∈ rowsForEvent l cat :=
        List.mem_map_of_mem _ (List.mem_filter.mpr ⟨hs, hm⟩)
      intro hnil
      rw [hnil] at hmem
      cases hmem
  · intro h
    have hz : ∀ s ∈ cat, ¬ (matchSong l s = true) := by
      intro s _
      rcases h with h | h <;> simp [matchSong, h, sqlEq_none_left]
    unfold rowsForEvent
    rw [List.filter_eq_nil_iff.mpr hz]
    rfl
  · simp [rowsForEvent]

/-- C3 witness: with the concrete one-record catalog, the matching event
contributes rows, the null-song event contributes none, and the row count
for the matching event equals its matching-record count. -/
theorem c3_witness :
    rowsForEvent c3EventMatch demoCat ≠ [] ∧
    rowsForEvent c3EventNull demoCat = [] ∧
    (rowsForEvent c3EventMatch demoCat).length
      = (demoCat.filter (fun s => matchSong c3EventMatch s)).length :=
  ⟨(c3_songplay_join_semantics demoLogs demoCat c3EventMatch).2.1.mpr
      ⟨mkSong (some "S1") (some "Foo") (some "A1") (some "Bar"), by decide, by decide⟩,
   (c3_songplay_join_semantics demoLogs demoCat c3EventNull).2.2.1 (Or.inl rfl),
   (c3_songplay_join_semantics demoLogs demoCat c3EventMatch).2.2.2⟩

/-- C10: if the raw song-metadata input contains k records (duplicates
included) whose `(title, artist_name)` pair matches the `(song, artist)`
pair of a filtered event, that event contributes exactly k songplays rows:
the join runs against the raw, non-deduplicated catalog view, and the
joined result is not deduplicated before ids are assigned, so the table
length is the sum of the per-event match counts. -/
theorem c10_duplicate_catalog_records_multiply (idOf : Nat → Int)
    (logs : List EventRecord) (cat : List SongRecord) (l : EventRecord) :
    (rowsForEvent l cat).length = cat.countP (fun s => matchSong l s) ∧
    (songplays_table idOf logs cat).length
      = ((filtered logs).map (fun e => cat.countP (fun s => matchSong e s))).sum := by
  constructor
  · simp [rowsForEvent, List.countP_eq_length_filter]
  · simp [songplays_table, songplays_rows, List.flatMap, rowsForEvent,
      List.countP_eq_length_filter, Function.comp_def, List.map_map]

/-- C10 witness: with two duplicate-matching catalog records, the concrete
matching event contributes exactly two rows, and the one-event log yields a
two-row songplays table. -/
theorem c10_witness :
    (rowsForEvent c3EventMatch dupCat).length = dupCat.countP (fun s => matchSong c3EventMatch s) ∧
    (songplays_table (fun n => (n : Int)) demoLogs dupCat).length
      = ((filtered demoLogs).map (fun e => dupCat.countP (fun s => matchSong e s))).sum :=
  c10_duplicate_catalog_records_multiply (fun n => (n : Int)) demoLogs dupCat c3EventMatch

/-- C9: whenever the id assignment produced by `monotonically_increasing_id`
is injective over row positions (which Spark guarantees: each partition
draws from a disjoint id range), all `songplay_id` values in the songplays
output of one run are pairwise distinct. -/
theorem c9_songplay_ids_pairwise_distinct (idOf : Nat → Int)
    (h : Function.Injective idOf) (logs : List EventRecord) (cat : List SongRecord) :
    (songplays_table idOf logs cat).Pairwise (fun a b => a.songplay_id ≠ b.songplay_id) := by
  unfold songplays_table
  rw [List.pairwise_map]
  have hfst : ((songplays_rows logs cat).enum.map Prod.fst).Pairwise (fun a b => a ≠ b) := by
    rw [List.enum_map_fst]
    exact List.nodup_range _
  exact (List.pairwise_map.mp hfst).imp (fun hne heq => hne (h heq))

/-- C9 witness: with the identity-style id assignment (injective) the
two-row concrete songplays table has distinct ids. -/
theorem c9_witness :
    (songplays_table (fun n => (n : Int)) demoLogs dupCat).Pairwise
      (fun a b => a.songplay_id ≠ b.songplay_id) :=
  c9_songplay_ids_pairwise_distinct (fun n => (n : Int))
    Nat.cast_injective demoLogs dupCat

/-- C8: two runs of the whole pipeline on unchanged inputs produce
identical songs, artists, users and time tables, and identical songplays
contents up to the `songplay_id` column, whatever id assignments the two
runs use: every derivation other than id assignment is a deterministic
function of the inputs, and each write replaces the whole table. -/
theorem c8_pipeline_idempotent_modulo_ids (idOf idOf2 : Nat → Int)
    (songInput : List SongRecord) (logInput : List EventRecord) :
    (etl_main idOf songInput logInput).songs = (etl_main idOf2 songInput logInput).songs ∧
    (etl_main idOf songInput logInput).artists = (etl_main idOf2 songInput logInput).artists ∧
    (etl_main idOf songInput logInput).users = (etl_main idOf2 songInput logInput).users ∧
    (etl_main idOf songInput logInput).time = (etl_main idOf2 songInput logInput).time ∧
    (etl_main idOf songInput logInput).songplays.map (fun t => t.map (·.row))
      = (etl_main idOf2 songInput logInput).songplays.map (fun t => t.map (·.row)) := by
  refine ⟨rfl, rfl, rfl, rfl, ?_⟩
  simp [etl_main, process_song_data, process_log_data, songplays_table, List.map_map]

/-- C1 counterexample: the event-log transform is NOT an independent entry
point. On a fresh session (no prior song-catalog transform) its songplays
query fails — the `song_data` temp view it joins against does not exist —
whereas after `process_song_data` it succeeds, so the two invocations do
not produce the same songplays output. -/
theorem c1_counterexample :
    (process_log_data (fun n => (n : Int)) ⟨none, none⟩ demoLogs).2.songplays = none ∧
    (process_log_data (fun n => (n : Int))
        (process_song_data ⟨none, none⟩ demoCat).1 demoLogs).2.songplays ≠ none := by
  constructor
  · rfl
  · decide

/-- C1 amended: the users and time derivations of the event-log transform
are independent of the song-catalog transform, but its songplays
derivation reads the in-memory `song_data` temp view registered by a prior
`process_song_data` call on the same session (not a re-load from the
song-metadata location and not the written files): invoked on a fresh
session the songplays query fails, and invoked after the song-catalog
transform it joins against the raw records held by that view. -/
theorem c1_event_transform_uses_registered_song_view (idOf : Nat → Int)
    (songInput : List SongRecord) (logInput : List EventRecord) :
    (process_log_data idOf ⟨none, none⟩ logInput).2.users
      = (process_log_data idOf (process_song_data ⟨none, none⟩ songInput).1 logInput).2.users ∧
    (process_log_data idOf ⟨none, none⟩ logInput).2.time
      = (process_log_data idOf (process_song_data ⟨none, none⟩ songInput).1 logInput).2.time ∧
    (process_log_data idOf ⟨none, none⟩ logInput).2.songplays = none ∧
    (process_log_data idOf (process_song_data ⟨none, none⟩ songInput).1 logInput).2.songplays
      = some (songplays_table idOf logInput songInput) :=
  ⟨rfl, rfl, rfl, rfl⟩

theorem countP_eq_one_of_unique {α : Type} [DecidableEq α] (l : List α) (p : α → Bool)
    (hnd : l.Nodup) (a : α) (ha : a ∈ l) (hpa : p a = true)
    (huniq : ∀ b ∈ l, p b = true → b = a) : l.countP p = 1 := by
  have hcong : ∀ b ∈ l, p b = (b == a) := by
    intro b hb
    cases hpb : p b with
    | true => simp [huniq b hb hpb]
    | false =>
      cases hba : b == a with
      | false => rfl
      | true =>
        have hb2 : b = a := by simpa using hba
        rw [hb2] at hpb
        rw [hpb] at hpa
        cases hpa
  have h1 : l.countP p = l.countP (· == a) :=
    List.countP_congr (fun x hx => by rw [hcong x hx])
  rw [h1, ← List.count_eq_countP]
  exact List.count_eq_one_of_mem hnd ha

theorem mem_users_table_iff (logs : List EventRecord) (r : UserRow) :
    r ∈ users_table logs ↔
      ∃ s ∈ filtered logs, r = projUser s ∧ (∃ u : Int, s.userId = some u) ∧
        groupMaxTs (filtered logs) s.userId = some s.ts := by
  unfold users_table
  rw [List.mem_dedup, List.mem_flatMap]
  constructor
  · rintro ⟨s, hs, hr⟩
    rcases List.mem_map.mp hr with ⟨p, hp, hpr⟩
    rcases List.mem_filter.mp hp with ⟨hpl, hcond⟩
    rcases Bool.and_eq_true_iff.mp hcond with ⟨h1, h2⟩
    rcases (sqlEq_true_iff _ _).mp h1 with ⟨u, hpu, hsu⟩
    have hp2 : p.2 = some s.ts := (sqlEq_some_left _ _).mp h2
    rcases List.mem_map.mp hpl with ⟨u0, _, hpu0⟩
    have hp1 : p.1 = s.userId := by rw [hpu, hsu]
    have hu0 : u0 = s.userId := by
      have : (u0, groupMaxTs (filtered logs) u0).1 = p.1 := by rw [hpu0]
      simpa [hp1] using this
    have hgm : groupMaxTs (filtered logs) s.userId = p.2 := by
      have : (u0, groupMaxTs (filtered logs) u0).2 = p.2 := by rw [hpu0]
      simpa [hu0] using this
    exact ⟨s, hs, hpr.symm, ⟨u, hsu⟩, by rw [hgm, hp2]⟩
  · rintro ⟨s, hs, hr, ⟨u, hu⟩, hmax⟩
    refine ⟨s, hs, List.mem_map.mpr
      ⟨(s.userId, groupMaxTs (filtered logs) s.userId), List.mem_filter.mpr ⟨?_, ?_⟩, hr.symm⟩⟩
    · exact List.mem_map.mpr
        ⟨s.userId, List.mem_dedup.mpr (List.mem_map.mpr ⟨s, hs, rfl⟩), rfl⟩
    · apply Bool.and_eq_true_iff.mpr
      constructor
      · rw [hu]
        simp [sqlEq]
      · rw [hmax]
        simp [sqlEq]

/-- C2 counterexample: the users table does NOT always hold one row per
user. With two "NextSong" events for user 1 that tie on the maximum `ts`
but differ in `level`, both rows survive the `DISTINCT`, so user 1 gets
two rows. -/
theorem c2_counterexample :
    some 1 ∈ (filtered c2Logs).map (fun e => e.userId) ∧
    (users_table c2Logs).countP (fun r => r.user_id == some 1) = 2 := by
  decide

/-- C2 amended: every users-table row comes from a filtered event record
with non-null `userId` whose `ts` attains the maximum `ts` of the group of
its user, and conversely the projection of every such record is in the table; and
for a user all of whose maximum-`ts` records agree on the projected
attributes (in particular whenever the maximum `ts` is attained by a
single record), the table holds exactly one row for that user. With
differing attributes on a tied maximum `ts`, one row per distinct
attribute tuple remains (see the counterexample). -/
theorem c2_users_table_latest_record (logs : List EventRecord) :
    (∀ r ∈ users_table logs, ∃ s ∈ filtered logs,
        r = projUser s ∧ (∃ u : Int, s.userId = some u) ∧
        groupMaxTs (filtered logs) s.userId = some s.ts) ∧
    (∀ s ∈ filtered logs, (∃ u : Int, s.userId = some u) →
        groupMaxTs (filtered logs) s.userId = some s.ts →
        projUser s ∈ users_table logs) ∧
    (∀ u : Int, ∀ s0 ∈ filtered logs, s0.userId = some u →
        groupMaxTs (filtered logs) (some u) = some s0.ts →
        (∀ s ∈ filtered logs, s.userId = some u →
            groupMaxTs (filtered logs) (some u) = some s.ts →
            projUser s = projUser s0) →
        (users_table logs).countP (fun r => r.user_id == some u) = 1) := by
  refine ⟨fun r hr => (mem_users_table_iff logs r).mp hr,
    fun s hs hu hmax => (mem_users_table_iff logs (projUser s)).mpr ⟨s, hs, rfl, hu, hmax⟩,
    ?_⟩
  intro u s0 hs0 hs0u hmax hagree
  apply countP_eq_one_of_unique _ _ (List.nodup_dedup _) (projUser s0)
  · exact (mem_users_table_iff logs (projUser s0)).mpr
      ⟨s0, hs0, rfl, ⟨u, hs0u⟩, by rw [hs0u, hmax]⟩
  · simp [projUser, hs0u]
  · intro b hb hbu
    rcases (mem_users_table_iff logs b).mp hb with ⟨s, hs, hbs, ⟨v, hv⟩, hgm⟩
    have hbuid : b.user_id = s.userId := by rw [hbs]; rfl
    have hsu : s.userId = some u := by
      rw [← hbuid]
      simpa using hbu
    rw [hbs]
    exact hagree s hs hsu (by rw [← hsu]; exact hgm)

/-- C2 witness: the scenario from the spec — user 10 with a "free" play at
`ts = 100` and a "paid" play at `ts = 200` — yields the paid row in the
users table and exactly one row for user 10. -/
theorem c2_witness :
    projUser (mkEvent (some "NextSong") (some 10) (some "paid") 200 none none)
      ∈ users_table c2ScenarioLogs ∧
    (users_table c2ScenarioLogs).countP (fun r => r.user_id == some 10) = 1 :=
  ⟨(c2_users_table_latest_record c2ScenarioLogs).2.1
      (mkEvent (some "NextSong") (some 10) (some "paid") 200 none none)
      (by decide) ⟨10, by decide⟩ (by decide),
   (c2_users_table_latest_record c2ScenarioLogs).2.2 10
      (mkEvent (some "NextSong") (some 10) (some "paid") 200 none none)
      (by decide) (by decide) (by decide) (by decide)⟩

/-- C4 witness: the amended conversion law evaluated at the concrete input
`ts = 1500`. -/
theorem c4_witness :
    (get_timestamp 1500).epochSec = (1500 : Int).ediv 1000 ∧
    (get_timestamp 1500).micro = (1500 : Int).emod 1000 * 1000 ∧
    (get_timestamp 1500).epochSec * 1000 + ((get_timestamp 1500).micro).ediv 1000 = 1500 ∧
    ((get_timestamp 1500).micro = 0 ↔ (1500 : Int).emod 1000 = 0) :=
  c4_get_timestamp_millisecond_precision 1500
